import Mathlib

/-!
# Verification of the VAM printing front-end orchestration logic

This file gives a shallow embedding, in Lean 4, of the Print/Projection
Orchestration Engine of the VAMprinting application (the React component in
the main application source file), and proves or refutes the specified
properties about it.

Modelling conventions:
* JavaScript numbers are modelled as rationals (`ℚ`); the `Float32Array`
  command buffer is modelled as a `List ℚ` of its six values.
* React state is modelled as an explicit `AppState` record; each event
  handler becomes a function `AppState → AppState × List Emission`, where
  `Emission` records the messages written to the BLE link or to the
  presentation (projection) channel during that handler run.
* JavaScript strings are modelled as Lean `String`s; the handful of string
  operations the code uses (`padStart`, `toLowerCase`, `endsWith`,
  `split(',')[1]`, decimal rendering of an index, `localeCompare` ordering)
  are defined below as executable functions on the underlying character
  lists.  `localeCompare` is modelled as code-point lexicographic
  comparison, which agrees with ICU root collation on the digit-versus-digit
  comparisons that decide the orderings analysed here.
-/

namespace VAM

/-! ## String utilities used by the code -/

/-- The character for a decimal digit, as produced by JavaScript number
formatting. -/
def digitChar : ℕ → Char
  | 0 => '0' | 1 => '1' | 2 => '2' | 3 => '3' | 4 => '4'
  | 5 => '5' | 6 => '6' | 7 => '7' | 8 => '8' | _ => '9'

/-- Fuelled decimal rendering (most significant digit first).  Fuel `n + 1`
is always enough for `n`. -/
def decDigitsCore : ℕ → ℕ → List Char
  | 0, _ => []
  | fuel + 1, n =>
    if n < 10 then [digitChar n]
    else decDigitsCore fuel (n / 10) ++ [digitChar (n % 10)]

/-- The decimal representation of a natural number, as the character list of
JavaScript `String(n)`. -/
def decRepr (n : ℕ) : List Char := decDigitsCore (n + 1) n

/-- JavaScript `String(i).padStart(4, '0')`. -/
def pad4 (i : ℕ) : String :=
  ⟨List.replicate (4 - (decRepr i).length) '0' ++ decRepr i⟩

/-- The archive entry name of slice number `i`:
`` `slice_${String(i).padStart(4, '0')}.png` ``. -/
def sliceName (i : ℕ) : String := "slice_" ++ pad4 i ++ ".png"

/-- Strict lexicographic (code-point) order on character lists; this is the
order underlying the `localeCompare`-based sort of archive entry names. -/
def lexLt : List Char → List Char → Bool
  | [], [] => false
  | [], _ :: _ => true
  | _ :: _, [] => false
  | a :: as, b :: bs => if a < b then true else if b < a then false else lexLt as bs

/-- `a.localeCompare(b) ≤ 0`, the comparator under which the import re-sorts
image entries (modelled as code-point order). -/
def nameLe (a b : String) : Bool := !(lexLt b.data a.data)

/-- JavaScript `s.toLowerCase()` (ASCII case folding suffices for the names
involved). -/
def strToLower (s : String) : String := ⟨s.data.map Char.toLower⟩

/-- JavaScript `s.endsWith(t)`. -/
def strEndsWith (s t : String) : Bool := t.data.isSuffixOf s.data

/-- Split a character list at commas (JavaScript `s.split(',')`). -/
def splitCommaList : List Char → List (List Char)
  | [] => [[]]
  | c :: cs =>
    match splitCommaList cs, decide (c = ',') with
    | r, true => [] :: r
    | [], false => [[c]]
    | a :: r, false => (c :: a) :: r

/-- JavaScript `s.split(',')[1]` (the empty string when there is no comma,
standing for `undefined`). -/
def split1 (s : String) : String := ⟨(splitCommaList s.data).getD 1 []⟩

/-- Remove the last `n` characters of a string. -/
def dropDataRight (s : String) (n : ℕ) : String :=
  ⟨s.data.take (s.data.length - n)⟩

/-- JavaScript `s.replace(/\.stl$/i, '')`. -/
def stripStlExt (s : String) : String :=
  if strEndsWith (strToLower s) ".stl" then dropDataRight s 4 else s

/-- JavaScript `s.replace(/\.zip$/i, '.stl')`. -/
def zipToStlName (s : String) : String :=
  if strEndsWith (strToLower s) ".zip" then dropDataRight s 4 ++ ".stl" else s

/-- The data-URL prelude every slice image string carries:
`data:image/png;base64,`. -/
def dataUrlStart : String := "data:image/png;base64,"

/-! ## Data model -/

/-- `SlicingParams` from `types.ts`. -/
structure SlicingParams where
  voxelSize : ℚ
  numProjections : ℚ
  rotX : ℚ
  rotY : ℚ
  rotZ : ℚ
deriving DecidableEq, Repr

/-- `ProjectionParams` from `types.ts`. -/
structure ProjectionParams where
  totalRotation : ℚ
  rotationSpeed : ℚ
  pauseAfterRotation : ℚ
  verticalSteps : ℚ
  verticalDelay : ℚ
  verticalDirection : ℚ
deriving DecidableEq, Repr

/-- `AlignmentParams` from `types.ts`. -/
structure AlignmentParams where
  scale : ℚ
  translateX : ℚ
  translateY : ℚ
  contrast : ℚ
deriving DecidableEq, Repr

/-- `PrintMode` from `types.ts`: `'velocity' | 'hops' | 'time-per-frame'`. -/
inductive PrintMode where
  | velocity
  | hops
  | timePerFrame
deriving DecidableEq, Repr

/-- `SlicingStatus` from `types.ts`. -/
inductive SlicingStatus where
  | idle
  | slicing
  | complete
  | failed
deriving DecidableEq, Repr

/-- The application tabs. -/
inductive Tab where
  | slicing
  | projecting
  | advanced
deriving DecidableEq, Repr

/-- State of the presentation connection held in
`presentationConnectionRef.current` (when the ref is non-null). -/
inductive PresState where
  | connected
  | closed
deriving DecidableEq, Repr

/-- The `settings.json` record written by `handleExportJob`. -/
structure Settings where
  slicingParams : SlicingParams
  projectionParams : ProjectionParams
  alignmentParams : AlignmentParams
deriving DecidableEq, Repr

/-- A job archive (zip).  `settings` is the parsed `settings.json` entry
(`none` when absent or unparsable); `projections` is the list of
`(relativePath, base64 data)` entries under `projections/` (`none` when the
directory is absent); `zipName` is the archive file name. -/
structure Archive where
  settings : Option Settings
  projections : Option (List (String × String))
  zipName : String
deriving DecidableEq, Repr

/-- Messages sent over the projection (presentation) channel. -/
inductive ChannelMsg where
  | updateImage (imageUrl : String)
  | clearImage
  | toggleCalibration (visible : Bool)
  | updateAlignment (params : AlignmentParams)
deriving DecidableEq, Repr

/-- Observable traffic produced by a handler: a BLE characteristic write or a
presentation-channel send. -/
inductive Emission where
  | bleWrite (cmd : List ℚ)
  | channelSend (msg : ChannelMsg)
deriving DecidableEq, Repr

/-- The React state of the `App` component (the fields the orchestration
handlers read or write).  Timer handles are modelled by the booleans
recording whether the corresponding interval/timeout is pending. -/
structure AppState where
  slicingParams : SlicingParams
  projectionParams : ProjectionParams
  alignmentParams : AlignmentParams
  projectionImages : List String
  slicingStatus : SlicingStatus
  slicingStatsTime : Option ℚ
  slicingStatsCount : Option ℕ
  fileName : Option String
  stlFile : Bool
  activeTab : Tab
  isPrinting : Bool
  isWaitingForHopTrigger : Bool
  isTestPrinting : Bool
  isCalibrating : Bool
  isSimulationMode : Bool
  isConnected : Bool
  writeCharacteristic : Bool
  presentationConn : Option PresState
  printMode : PrintMode
  timePerFrame : ℚ
  printIntervalActive : Bool
  printTimeoutActive : Bool
  printCurrentFrame : ℕ
  testPrintIntervalActive : Bool
deriving DecidableEq, Repr

/-- The initial state of the component (`useState` initialisers). -/
def initialState : AppState where
  slicingParams := ⟨1, 120, 0, 0, 0⟩
  projectionParams := ⟨360, 30, 0, 0, 1000, 1⟩
  alignmentParams := ⟨100, 0, 0, 100⟩
  projectionImages := []
  slicingStatus := .idle
  slicingStatsTime := none
  slicingStatsCount := none
  fileName := none
  stlFile := false
  activeTab := .slicing
  isPrinting := false
  isWaitingForHopTrigger := false
  isTestPrinting := false
  isCalibrating := false
  isSimulationMode := false
  isConnected := false
  writeCharacteristic := false
  presentationConn := none
  printMode := .velocity
  timePerFrame := 100
  printIntervalActive := false
  printTimeoutActive := false
  printCurrentFrame := 0
  testPrintIntervalActive := false

/-! ## Device commands (`handlePrint` / `stopPrint` encoding) -/

/-- The `tomographicDelayMs` computed in `handlePrint`:
`rotationSpeed > 0 ? (0.1125 / rotationSpeed) * 1000 : 0`. -/
def tomographicDelayMs (rotationSpeed : ℚ) : ℚ :=
  if rotationSpeed > 0 then 0.1125 / rotationSpeed * 1000 else 0

/-- The six-float print command assembled by `handlePrint` (each value is one
float32 slot of the 24-byte `Float32Array(6)` buffer, in index order
`0..5`).  JavaScript `pauseAfterRotation || 0` is the identity on every
number except `NaN`, so it is modelled as `pauseAfterRotation`. -/
def buildPrintCommand (p : ProjectionParams) : List ℚ :=
  [ p.totalRotation,
    tomographicDelayMs p.rotationSpeed,
    p.pauseAfterRotation / 1000,
    p.verticalSteps,
    p.verticalDelay,
    p.verticalDirection ]

/-- The stop command sent by `stopPrint`: `new Float32Array(6).fill(0)`. -/
def stopCommand : List ℚ := List.replicate 6 0

/-! ## Session handlers

Each handler returns the successor state together with the list of BLE /
projection-channel messages it emits, in order. -/

/-- `stopPrint`: clear any pending interval/timeout, leave `Printing` and
`WaitingForTrigger`, send the zero command over BLE when a characteristic is
held and simulation mode is off, and send `CLEAR_IMAGE` whenever the
presentation-connection ref is non-null. -/
def stopPrint (s : AppState) : AppState × List Emission :=
  let s' := { s with
    printIntervalActive := false
    printTimeoutActive := false
    isPrinting := false
    isWaitingForHopTrigger := false }
  let bleTraffic :=
    if s.writeCharacteristic ∧ ¬s.isSimulationMode then
      [Emission.bleWrite stopCommand]
    else []
  let channelTraffic :=
    if (s.presentationConn).isSome then
      [Emission.channelSend ChannelMsg.clearImage]
    else []
  (s', bleTraffic ++ channelTraffic)

/-- `stopTestPrint`: clear the playback interval and the `TestPlaying` flag;
send `CLEAR_IMAGE` when the presentation connection is in state
`connected`. -/
def stopTestPrint (s : AppState) : AppState × List Emission :=
  let s' := { s with testPrintIntervalActive := false, isTestPrinting := false }
  (s', if s.presentationConn = some .connected then
        [Emission.channelSend ChannelMsg.clearImage]
      else [])

/-- `handleTestPrint`: toggle off when already playing; otherwise require a
nonempty image set and a connected presentation channel, forcibly exit
calibration, and start the playback interval (the first frame is sent only
when the interval first fires, so starting emits nothing). -/
def handleTestPrint (s : AppState) : AppState × List Emission :=
  if s.isTestPrinting then stopTestPrint s
  else if s.projectionImages.length = 0 then (s, [])
  else if s.presentationConn ≠ some .connected then (s, [])
  else
    let s₁ := if s.isCalibrating then { s with isCalibrating := false } else s
    ({ s₁ with isTestPrinting := true, testPrintIntervalActive := true }, [])

/-- One firing of the test-playback interval: when the channel is still
connected, send the frame at index `frame` and advance the counter modulo
the image count; otherwise stop the playback.  `frame` is the closure-local
`currentFrame` variable; the function returns the updated state, the updated
counter, and the emitted traffic. -/
def testPrintStep (images : List String) (s : AppState) (frame : ℕ) :
    AppState × ℕ × List Emission :=
  if s.presentationConn = some .connected then
    (s, (frame + 1) % images.length,
      [Emission.channelSend (ChannelMsg.updateImage (images.getD frame ""))])
  else
    let (s', e) := stopTestPrint s
    (s', frame, e)

/-- `handleCalibration`: require a connected presentation channel, forcibly
stop test playback, then toggle the calibration flag and notify the
receiver. -/
def handleCalibration (s : AppState) : AppState × List Emission :=
  if s.presentationConn ≠ some .connected then (s, [])
  else
    let (s₁, e₁) := if s.isTestPrinting then stopTestPrint s else (s, [])
    let newCal := !s₁.isCalibrating
    ({ s₁ with isCalibrating := newCal },
      e₁ ++ [Emission.channelSend (ChannelMsg.toggleCalibration newCal)])

/-- The per-frame delay computed in `runSimulationStep` (`delay` starts at
the default `100` and is overwritten in every mode; `hops` has no physical
trigger in simulation and reuses the velocity formula). -/
def simDelay (mode : PrintMode) (timePerFrame : ℚ) (p : ProjectionParams)
    (totalFrames : ℕ) : ℚ :=
  match mode with
  | .timePerFrame => timePerFrame
  | .velocity => p.totalRotation / (totalFrames : ℚ) / p.rotationSpeed * 1000
  | .hops => p.totalRotation / (totalFrames : ℚ) / p.rotationSpeed * 1000

/-- One step of the simulated-print loop (`runSimulationStep`): stop once
`currentFrame` reaches `totalFrames`; otherwise send the current frame,
advance the counter, and schedule the next step after `simDelay` (the middle
component is the delay passed to `setTimeout`, `none` when the loop stops
instead of rescheduling).  `images` and `totalFrames = images.length` are
the values captured when the loop started. -/
def runSimulationStep (images : List String) (s : AppState) :
    AppState × Option ℚ × List Emission :=
  if s.printCurrentFrame ≥ images.length then
    let (s', e) := stopPrint s
    (s', none, e)
  else
    ({ s with
        printCurrentFrame := s.printCurrentFrame + 1
        printTimeoutActive := true },
      some (simDelay s.printMode s.timePerFrame s.projectionParams images.length),
      [Emission.channelSend
        (ChannelMsg.updateImage (images.getD s.printCurrentFrame ""))])

/-- `handlePrint`: toggle to `stopPrint` when already printing.  In
simulation mode require a connected presentation channel, mark `Printing`,
reset the frame counter and run the first simulation step synchronously.
Otherwise require a BLE characteristic, mark `Printing` and write the
encoded print command. -/
def handlePrint (s : AppState) : AppState × List Emission :=
  if s.isPrinting then stopPrint s
  else if s.isSimulationMode then
    if s.presentationConn ≠ some .connected then (s, [])
    else
      let s₁ := { s with isPrinting := true, printCurrentFrame := 0 }
      let r := runSimulationStep s₁.projectionImages s₁
      (r.1, r.2.2)
  else
    if ¬s.writeCharacteristic then (s, [])
    else
      ({ s with isPrinting := true },
        [Emission.bleWrite (buildPrintCommand s.projectionParams)])

/-- The `gattserverdisconnected` listener installed by `handlePair`:
invalidate the connection state and run the stop path.  (The `stopPrint`
closure captured at pairing time saw a `null` characteristic, so the model,
which runs `stopPrint` after the characteristic is cleared, emits the same
traffic: no BLE write.) -/
def onGattDisconnected (s : AppState) : AppState × List Emission :=
  stopPrint { s with isConnected := false, writeCharacteristic := false }

/-- The close/terminate handler of the projection window connection: drop
the ref, stop any print and any test playback, and exit calibration. -/
def onProjWindowClose (s : AppState) : AppState × List Emission :=
  let s₀ := { s with presentationConn := none }
  let (s₁, e₁) := stopPrint s₀
  let (s₂, e₂) := stopTestPrint s₁
  ({ s₂ with isCalibrating := false }, e₁ ++ e₂)

/-- A presentation connection becoming available in
`openProjectionWindow`. -/
def onProjWindowConnect (s : AppState) : AppState × List Emission :=
  ({ s with presentationConn := some .connected }, [])

/-- `handleESP32Notification`: a hop-trigger notification clears
`WaitingForTrigger`, and is ignored outside `hops`-mode printing. -/
def handleESP32Notification (s : AppState) : AppState × List Emission :=
  if s.printMode = .hops ∧ s.isPrinting ∧ s.isWaitingForHopTrigger then
    ({ s with isWaitingForHopTrigger := false }, [])
  else (s, [])

/-- The session-controller events: each constructor is one handler
invocation or timer/notification callback of the component. -/
inductive Ev where
  | print
  | testPrint
  | calibration
  | stop
  | stopTest
  | gattDisconnected
  | projWindowClose
  | projWindowConnect
  | esp32Notification
  | simStep
  | testStep (frame : ℕ)
deriving DecidableEq, Repr

/-- The state transition of one event (emissions discarded). -/
def step (e : Ev) (s : AppState) : AppState :=
  match e with
  | .print => (handlePrint s).1
  | .testPrint => (handleTestPrint s).1
  | .calibration => (handleCalibration s).1
  | .stop => (stopPrint s).1
  | .stopTest => (stopTestPrint s).1
  | .gattDisconnected => (onGattDisconnected s).1
  | .projWindowClose => (onProjWindowClose s).1
  | .projWindowConnect => (onProjWindowConnect s).1
  | .esp32Notification => (handleESP32Notification s).1
  | .simStep => (runSimulationStep s.projectionImages s).1
  | .testStep frame => (testPrintStep s.projectionImages s frame).1

/-! ## Persisted calibration offset -/

/-- A parsed JSON value (the shapes `JSON.parse` can return that the
calibration-offset loader inspects; arrays are irrelevant to it and
omitted). -/
inductive JsonVal where
  | jnum (q : ℚ)
  | jstr (s : String)
  | jbool (b : Bool)
  | jnull
  | jobj (fields : List (String × JsonVal))

/-- Property lookup `v.k` on a parsed JSON object (`none` models
`undefined`; non-objects have no own properties here). -/
def jlookup (fields : List (String × JsonVal)) (k : String) : Option JsonVal :=
  (fields.find? (fun f => f.1 = k)).map (·.2)

/-- `typeof v === 'number'` projection. -/
def asNum : Option JsonVal → Option ℚ
  | some (.jnum q) => some q
  | _ => none

/-- The startup effect loading the persisted `{x, y}` calibration offset:
`stored = none` covers both an absent key and a `JSON.parse`/property-access
exception swallowed by the surrounding `try`/`catch` (accessing `.x` on
`null` throws).  Only a record whose `x` and `y` are numbers updates
`translateX`/`translateY`; everything else leaves the parameters
untouched. -/
def loadCalibrationOffset (stored : Option JsonVal) (p : AlignmentParams) :
    AlignmentParams :=
  match stored with
  | some (.jobj fields) =>
    match asNum (jlookup fields "x"), asNum (jlookup fields "y") with
    | some x, some y => { p with translateX := x, translateY := y }
    | _, _ => p
  | _ => p

/-! ## Job package codec (`handleExportJob` / `handleImportJob`) -/

/-- The `projections/` entries written by the export loop:
entry `i` is named `sliceName i` and carries
`projectionImages[i].split(',')[1]`, the base64 payload of the data URL. -/
def exportEntries (images : List String) : List (String × String) :=
  (List.range images.length).map fun i => (sliceName i, split1 (images.getD i ""))

/-- `handleExportJob`: refuse unless slicing is complete and the image set is
nonempty; otherwise produce the archive with the settings record, the named
image entries, and the suggested zip name. -/
def handleExportJob (s : AppState) : Option Archive :=
  if s.slicingStatus ≠ .complete ∨ s.projectionImages.length = 0 then none
  else some
    { settings := some ⟨s.slicingParams, s.projectionParams, s.alignmentParams⟩
      projections := some (exportEntries s.projectionImages)
      zipName := stripStlExt ((s.fileName).getD "model") ++ ".zip" }

/-- The image-reconstruction pipeline of `handleImportJob`: keep the entries
whose lower-cased name ends in `.png`, sort them by name
(`localeCompare`, a stable sort), and turn each base64 payload back into a
data URL. -/
def importImages (entries : List (String × String)) : List String :=
  let filtered := entries.filter fun e => strEndsWith (strToLower e.1) ".png"
  let sorted := filtered.mergeSort fun a b => nameLe a.1 b.1
  sorted.map fun e => dataUrlStart ++ e.2

/-- `handleImportJob` on an already-read archive (`none` models a file that
`JSZip.loadAsync` rejects).  The returned boolean is `true` on success.
Mirroring the `try`/`catch` in the source, an error aborts the remaining
steps but keeps every state update already performed: the three parameter
records are committed as soon as `settings.json` parses, before the
`projections/` directory is checked. -/
def handleImportJob (s : AppState) (ar : Option Archive) : AppState × Bool :=
  match ar with
  | none => (s, false)
  | some a =>
    match a.settings with
    | none => (s, false)
    | some st =>
      let s₁ := { s with
        slicingParams := st.slicingParams
        projectionParams := st.projectionParams
        alignmentParams := st.alignmentParams }
      match a.projections with
      | none => (s₁, false)
      | some entries =>
        let imgs := importImages entries
        ({ s₁ with
            projectionImages := imgs
            fileName := some (zipToStlName a.zipName)
            stlFile := false
            slicingStatus := .complete
            slicingStatsTime := some 0
            slicingStatsCount := some imgs.length
            activeTab := .projecting }, true)

/-! ## Concrete states and archives used by the claim analyses -/

/-- An idle state (no active print, no pending timer) holding a BLE
characteristic and a presentation connection. -/
def c3IdleState : AppState :=
  { initialState with
    isConnected := true
    writeCharacteristic := true
    presentationConn := some .connected }

/-- An archive whose `settings.json` parses (with a voxel size different
from the default) but which has no `projections/` directory. -/
def archiveNoProjections : Archive :=
  { settings := some ⟨⟨2, 120, 0, 0, 0⟩, ⟨360, 30, 0, 0, 1000, 1⟩, ⟨100, 0, 0, 100⟩⟩
    projections := none
    zipName := "job.zip" }

/-- A state ready for a simulated print: simulation mode on, projection
window connected, one sliced image loaded, no session active. -/
def c2State : AppState :=
  { initialState with
    isSimulationMode := true
    presentationConn := some .connected
    projectionImages := ["data:image/png;base64,AAAA"]
    slicingStatus := .complete }

/-- The image set used in the round-trip analysis of the codec: 10001
distinct data-URL images. -/
def c5Images : List String :=
  (List.range 10001).map fun i => dataUrlStart ++ sliceName i

/-- A completed-slicing state holding `c5Images`. -/
def c5State : AppState :=
  { initialState with
    slicingStatus := .complete
    projectionImages := c5Images }

/-! ## Claim theorems -/

/-- **C4** — For every `ProjectionParams`, the real-mode print command is
exactly six float32 values (one 24-byte buffer) in the fixed order
`[totalRotation, tomographicDelayMs, pauseSeconds, verticalSteps,
verticalDelayUs, verticalDirection]`, where
`tomographicDelayMs = (0.1125 / rotationSpeed) * 1000` when
`rotationSpeed > 0` and `0` otherwise, and
`pauseSeconds = pauseAfterRotation / 1000`; the stop command is the same
six-float layout filled with zero. -/
theorem claim_C4 (p : ProjectionParams) :
    (buildPrintCommand p).length = 6 ∧
    buildPrintCommand p =
      [ p.totalRotation,
        if p.rotationSpeed > 0 then 0.1125 / p.rotationSpeed * 1000 else 0,
        p.pauseAfterRotation / 1000,
        p.verticalSteps,
        p.verticalDelay,
        p.verticalDirection ] ∧
    stopCommand.length = 6 ∧ stopCommand = [0, 0, 0, 0, 0, 0] :=
  ⟨rfl, rfl, rfl, rfl⟩

/-- **C6** — In a simulated print over a nonempty image set, the delay
scheduled between consecutive frames is `timePerFrame` in `TimePerFrame`
mode and `(totalRotation / frameCount) / rotationSpeed * 1000` in
`Velocity` and `Hops` modes; with 120 images, `Velocity` mode,
`rotationSpeed = 30` and `totalRotation = 360` the per-frame delay is
exactly 100 ms. -/
theorem claim_C6 (images : List String) (s : AppState)
    (h : s.printCurrentFrame < images.length) :
    (runSimulationStep images s).2.1 =
      some (simDelay s.printMode s.timePerFrame s.projectionParams images.length) ∧
    (s.printMode = .timePerFrame →
      (runSimulationStep images s).2.1 = some s.timePerFrame) ∧
    ((s.printMode = .velocity ∨ s.printMode = .hops) →
      (runSimulationStep images s).2.1 =
        some (s.projectionParams.totalRotation / (images.length : ℚ) /
          s.projectionParams.rotationSpeed * 1000)) ∧
    simDelay .velocity s.timePerFrame ⟨360, 30, 0, 0, 1000, 1⟩ 120 = 100 := by
  have hlt : ¬ s.printCurrentFrame ≥ images.length := by omega
  refine ⟨?_, ?_, ?_, ?_⟩
  · simp [runSimulationStep, hlt]
  · intro hm; simp [runSimulationStep, hlt, simDelay, hm]
  · rintro (hm | hm) <;> simp [runSimulationStep, hlt, simDelay, hm]
  · norm_num [simDelay]

/-- Witness for C6 at a concrete state: 120 images, `Velocity` mode,
`rotationSpeed = 30 °/s`, `totalRotation = 360°` give a scheduled per-frame
delay of exactly 100 ms. -/
theorem claim_C6_witness :
    ((0 : ℕ) < (List.replicate 120 "img").length) ∧
    (runSimulationStep (List.replicate 120 "img")
        { initialState with isPrinting := true }).2.1 =
      some (simDelay .velocity 100 ⟨360, 30, 0, 0, 1000, 1⟩ 120) ∧
    simDelay .velocity 100 ⟨360, 30, 0, 0, 1000, 1⟩ 120 = 100 :=
  ⟨by decide,
    (claim_C6 (List.replicate 120 "img") { initialState with isPrinting := true }
      (by decide)).1,
    by norm_num [simDelay]⟩

/-- **C7** — For all `rotationSpeed > 0`,
`tomographicDelayMs = (0.1125 / rotationSpeed) * 1000`, and the value is
strictly decreasing in the speed: for positive speeds `s₁ < s₂` the encoded
delay at `s₂` is strictly smaller than at `s₁`. -/
theorem claim_C7 (s₁ s₂ : ℚ) (h₁ : 0 < s₁) (h₁₂ : s₁ < s₂) :
    tomographicDelayMs s₁ = 0.1125 / s₁ * 1000 ∧
    tomographicDelayMs s₂ = 0.1125 / s₂ * 1000 ∧
    tomographicDelayMs s₂ < tomographicDelayMs s₁ := by
  have h₂ : 0 < s₂ := h₁.trans h₁₂
  refine ⟨if_pos h₁, if_pos h₂, ?_⟩
  rw [tomographicDelayMs, tomographicDelayMs, if_pos h₁, if_pos h₂]
  have hd : (0.1125 : ℚ) / s₂ < 0.1125 / s₁ :=
    div_lt_div_of_pos_left (by norm_num) h₁ h₁₂
  exact mul_lt_mul_of_pos_right hd (by norm_num)

/-- Witness for C7 at speeds 1 and 2: the encoded delay drops from 112.5 to
56.25. -/
theorem claim_C7_witness :
    (0 : ℚ) < 1 ∧ (1 : ℚ) < 2 ∧ tomographicDelayMs 2 < tomographicDelayMs 1 :=
  ⟨by norm_num, by norm_num, (claim_C7 1 2 (by norm_num) (by norm_num)).2.2⟩

/-- **C8** — A device disconnect notification received while the controller
is `Printing` transitions it to `Idle` in that same event turn: the
disconnect handler itself invalidates the connection state (`isConnected`
false, characteristic cleared) and runs the stop path, clearing `Printing`
and `WaitingForTrigger`, with no user action involved. -/
theorem claim_C8 (s : AppState) (_h : s.isPrinting = true) :
    (onGattDisconnected s).1.isConnected = false ∧
    (onGattDisconnected s).1.writeCharacteristic = false ∧
    (onGattDisconnected s).1.isPrinting = false ∧
    (onGattDisconnected s).1.isWaitingForHopTrigger = false ∧
    (onGattDisconnected s).1.printIntervalActive = false ∧
    (onGattDisconnected s).1.printTimeoutActive = false := by
  simp [onGattDisconnected, stopPrint]

/-- Witness for C8: disconnecting a concrete printing state yields an idle,
disconnected state. -/
theorem claim_C8_witness :
    ({ initialState with
        isPrinting := true, isConnected := true,
        writeCharacteristic := true } : AppState).isPrinting = true ∧
    (onGattDisconnected { initialState with
        isPrinting := true, isConnected := true,
        writeCharacteristic := true }).1.isPrinting = false :=
  ⟨rfl,
    (claim_C8 { initialState with
        isPrinting := true, isConnected := true,
        writeCharacteristic := true } rfl).2.2.1⟩

/-- **C9** — Loading the persisted calibration offset folds a well-formed
stored `{x, y}` record (both fields numbers) into
`AlignmentParams.translateX/translateY`, leaving the other alignment
fields untouched; an absent, unparsable, non-object or non-numeric stored
value leaves all alignment parameters unchanged (and the loader is a total
function: no error escapes). -/
theorem claim_C9 (p : AlignmentParams) (f : List (String × JsonVal)) (x y : ℚ)
    (hx : jlookup f "x" = some (.jnum x)) (hy : jlookup f "y" = some (.jnum y)) :
    loadCalibrationOffset (some (.jobj f)) p =
      { p with translateX := x, translateY := y } ∧
    loadCalibrationOffset none p = p ∧
    (∀ v : JsonVal, (∀ fs, v ≠ .jobj fs) → loadCalibrationOffset (some v) p = p) ∧
    (∀ fs : List (String × JsonVal),
      asNum (jlookup fs "x") = none ∨ asNum (jlookup fs "y") = none →
      loadCalibrationOffset (some (.jobj fs)) p = p) := by
  refine ⟨?_, rfl, ?_, ?_⟩
  · simp [loadCalibrationOffset, hx, hy, asNum]
  · intro v hv
    cases v with
    | jobj fs => exact absurd rfl (hv fs)
    | jnum q => rfl
    | jstr s => rfl
    | jbool b => rfl
    | jnull => rfl
  · intro fs hfs
    rcases hfs with hfs | hfs
    · simp [loadCalibrationOffset, hfs]
    · cases hx2 : asNum (jlookup fs "x") <;>
        simp [loadCalibrationOffset, hfs, hx2]

/-- Witness for C9: a stored record `{x: 7, y: -3}` is folded into the
default alignment parameters. -/
theorem claim_C9_witness :
    jlookup [("x", JsonVal.jnum 7), ("y", JsonVal.jnum (-3))] "x" =
      some (JsonVal.jnum 7) ∧
    jlookup [("x", JsonVal.jnum 7), ("y", JsonVal.jnum (-3))] "y" =
      some (JsonVal.jnum (-3)) ∧
    loadCalibrationOffset
        (some (.jobj [("x", JsonVal.jnum 7), ("y", JsonVal.jnum (-3))]))
        ⟨100, 0, 0, 100⟩ =
      ⟨100, 7, -3, 100⟩ :=
  ⟨rfl, rfl,
    (claim_C9 ⟨100, 0, 0, 100⟩ [("x", JsonVal.jnum 7), ("y", JsonVal.jnum (-3))]
      7 (-3) rfl rfl).1⟩

/-- **C10** — Every image lookup performed by the two frame loops is in
bounds: the test-playback loop advances its counter modulo the image count,
so from an in-bounds frame the accessed index and the successor frame stay
in `[0, length)` (and the loop only starts on a nonempty image set, at
frame 0); the simulated-print loop checks `currentFrame` against the frame
count before each access — below the count the accessed index is valid, at
or above it the step stops via `stopPrint` without accessing any image. -/
theorem claim_C10 (images : List String) (s : AppState) (frame : ℕ) :
    (frame < images.length →
      (images.get? frame).isSome ∧
      (testPrintStep images s frame).2.1 < images.length) ∧
    (s.isTestPrinting = false → s.projectionImages.length = 0 →
      (handleTestPrint s).1 = s) ∧
    (s.printCurrentFrame < images.length →
      (images.get? s.printCurrentFrame).isSome ∧
      (runSimulationStep images s).1.printCurrentFrame ≤ images.length) ∧
    (s.printCurrentFrame ≥ images.length →
      (runSimulationStep images s).1 = (stopPrint s).1 ∧
      (runSimulationStep images s).2.2 = (stopPrint s).2) := by
  refine ⟨?_, ?_, ?_, ?_⟩
  · intro h
    refine ⟨by simp [List.get?_eq_getElem?, List.getElem?_eq_getElem h], ?_⟩
    unfold testPrintStep
    by_cases hc : s.presentationConn = some PresState.connected
    · simpa [hc] using Nat.mod_lt _ (by omega)
    · simp [hc, stopTestPrint, h]
  · intro ht h
    simp [handleTestPrint, ht, h]
  · intro h
    have hlt : ¬ s.printCurrentFrame ≥ images.length := by omega
    refine ⟨by simp [List.get?_eq_getElem?, List.getElem?_eq_getElem h], ?_⟩
    simp [runSimulationStep, hlt]
    omega
  · intro h
    constructor <;> simp [runSimulationStep, h]

/-- Witness for C10 on a concrete two-image set: both loop steps stay in
bounds, and the simulation step at the end of the set stops cleanly. -/
theorem claim_C10_witness :
    ((1 : ℕ) < 2 ∧
      ((["a", "b"].get? 1).isSome ∧
        (testPrintStep ["a", "b"] initialState 1).2.1 < 2)) ∧
    (initialState.isTestPrinting = false ∧
      initialState.projectionImages.length = 0 ∧
      (handleTestPrint initialState).1 = initialState) ∧
    (initialState.printCurrentFrame < 1 ∧
      ((["a"].get? initialState.printCurrentFrame).isSome ∧
        (runSimulationStep ["a"] initialState).1.printCurrentFrame ≤ 1)) ∧
    (initialState.printCurrentFrame ≥ 0 ∧
      (runSimulationStep [] initialState).1 = (stopPrint initialState).1) :=
  ⟨⟨by decide, (claim_C10 ["a", "b"] initialState 1).1 (by decide)⟩,
   ⟨by decide, by decide, (claim_C10 [] initialState 0).2.1 (by decide) (by decide)⟩,
   ⟨by decide, (claim_C10 ["a"] initialState 0).2.2.1 (by decide)⟩,
   ⟨by decide, ((claim_C10 [] initialState 0).2.2.2 (by decide)).1⟩⟩

/-- **C3, counterexample** — From an idle state with a connected device and
an open projection channel, the second of two consecutive `stopPrint` calls
emits the zero command and `CLEAR_IMAGE` again: the claim that the second
call produces no additional device-link or projection-channel traffic is
false.  (`stopPrint` sends unconditionally whenever the characteristic /
channel are present, not only when a session was active.) -/
theorem claim_C3_counterexample :
    c3IdleState.isPrinting = false ∧
    c3IdleState.printIntervalActive = false ∧
    c3IdleState.printTimeoutActive = false ∧
    (stopPrint (stopPrint c3IdleState).1).2 =
      [Emission.bleWrite stopCommand,
       Emission.channelSend ChannelMsg.clearImage] ∧
    (stopPrint (stopPrint c3IdleState).1).2 ≠ [] := by
  refine ⟨rfl, rfl, rfl, rfl, by decide⟩

/-- **C3, amended** — `stopPrint` is idempotent on the state: called from
the idle state it leaves the state unchanged, so the state after two calls
equals the state after one, and no error is raised (the handler is a total
function).  The second call, however, emits exactly the same traffic as the
first — the zero command when a characteristic is held outside simulation
mode, and `CLEAR_IMAGE` when the presentation-connection ref is present;
only with neither attached is there no traffic at all. -/
theorem claim_C3 (s : AppState) (h1 : s.isPrinting = false)
    (h2 : s.isWaitingForHopTrigger = false)
    (h3 : s.printIntervalActive = false)
    (h4 : s.printTimeoutActive = false) :
    (stopPrint s).1 = s ∧
    (stopPrint (stopPrint s).1).1 = (stopPrint s).1 ∧
    (stopPrint (stopPrint s).1).2 = (stopPrint s).2 ∧
    (s.writeCharacteristic = false → s.presentationConn = none →
      (stopPrint s).2 = []) := by
  have hs : (stopPrint s).1 = s := by
    cases s
    simp_all [stopPrint]
  refine ⟨hs, by rw [hs]; exact hs, by rw [hs], ?_⟩
  intro hw hp
  simp [stopPrint, hw, hp]

/-- Witness for the amended C3 at the initial (idle, fully disconnected)
state: both calls leave the state unchanged and produce no traffic. -/
theorem claim_C3_witness :
    initialState.isPrinting = false ∧
    initialState.isWaitingForHopTrigger = false ∧
    initialState.printIntervalActive = false ∧
    initialState.printTimeoutActive = false ∧
    (stopPrint initialState).1 = initialState ∧
    (stopPrint (stopPrint initialState).1).2 = (stopPrint initialState).2 ∧
    (stopPrint initialState).2 = [] :=
  ⟨rfl, rfl, rfl, rfl,
    (claim_C3 initialState rfl rfl rfl rfl).1,
    (claim_C3 initialState rfl rfl rfl rfl).2.2.1,
    (claim_C3 initialState rfl rfl rfl rfl).2.2.2 rfl rfl⟩

/-- **C1, counterexample** — Importing an archive that lacks the
`projections/` directory fails, yet the slicing parameters no longer hold
their pre-import values: the handler commits all three parameter records
as soon as `settings.json` parses, before checking `projections/`, so
this import error leaves a partial state mutation behind. -/
theorem claim_C1_counterexample :
    (handleImportJob initialState (some archiveNoProjections)).2 = false ∧
    (handleImportJob initialState (some archiveNoProjections)).1.slicingParams ≠
      initialState.slicingParams := by
  refine ⟨rfl, by decide⟩

/-- **C1, amended** — An import error aborts the remaining steps: on any
failed import the `ImageSet` (`projectionImages`), the slicing status and
stats, and the loaded file name all retain their pre-import values, and if
the archive is unreadable or its `settings.json` entry is missing or
unparsable the whole state is unchanged.  The three parameter records,
however, are committed as soon as `settings.json` parses — an error found
after that point (a missing `projections/` directory) leaves the imported
parameters in place. -/
theorem claim_C1 (s : AppState) (ar : Option Archive)
    (herr : (handleImportJob s ar).2 = false) :
    (handleImportJob s ar).1.projectionImages = s.projectionImages ∧
    (handleImportJob s ar).1.slicingStatus = s.slicingStatus ∧
    (handleImportJob s ar).1.slicingStatsTime = s.slicingStatsTime ∧
    (handleImportJob s ar).1.slicingStatsCount = s.slicingStatsCount ∧
    (handleImportJob s ar).1.fileName = s.fileName ∧
    (handleImportJob s ar).1.stlFile = s.stlFile ∧
    (ar = none → (handleImportJob s ar).1 = s) ∧
    (∀ a, ar = some a → a.settings = none → (handleImportJob s ar).1 = s) ∧
    (∀ a st, ar = some a → a.settings = some st →
      (handleImportJob s ar).1.slicingParams = st.slicingParams ∧
      (handleImportJob s ar).1.projectionParams = st.projectionParams ∧
      (handleImportJob s ar).1.alignmentParams = st.alignmentParams) := by
  match har : ar with
  | none => simp [handleImportJob]
  | some a =>
    match hst : a.settings with
    | none =>
      have hres : handleImportJob s (some a) = (s, false) := by
        simp [handleImportJob, hst]
      rw [hres]
      refine ⟨rfl, rfl, rfl, rfl, rfl, rfl, by simp, fun _ _ _ => rfl, ?_⟩
      intro a' st' ha' hst'
      cases ha'
      rw [hst] at hst'
      exact absurd hst' (by simp)
    | some st =>
      match hpr : a.projections with
      | none =>
        have hres : handleImportJob s (some a) =
            ({ s with
                slicingParams := st.slicingParams
                projectionParams := st.projectionParams
                alignmentParams := st.alignmentParams }, false) := by
          simp [handleImportJob, hst, hpr]
        rw [hres]
        refine ⟨rfl, rfl, rfl, rfl, rfl, rfl, by simp, ?_, ?_⟩
        · intro a' ha' hs'
          cases ha'
          rw [hst] at hs'
          exact absurd hs' (by simp)
        · intro a' st' ha' hst'
          cases ha'
          rw [hst] at hst'
          cases hst'
          exact ⟨rfl, rfl, rfl⟩
      | some entries =>
        have hres : (handleImportJob s (some a)).2 = true := by
          simp [handleImportJob, hst, hpr]
        rw [hres] at herr
        exact absurd herr (by simp)

/-- Witness for the amended C1: importing the settings-but-no-projections
archive into the initial state fails and leaves the image set, status,
stats and file name untouched while the parameters take the archive's
values. -/
theorem claim_C1_witness :
    (handleImportJob initialState (some archiveNoProjections)).2 = false ∧
    (handleImportJob initialState (some archiveNoProjections)).1.projectionImages =
      initialState.projectionImages ∧
    (handleImportJob initialState (some archiveNoProjections)).1.slicingStatus =
      initialState.slicingStatus ∧
    (handleImportJob initialState (some archiveNoProjections)).1.slicingParams =
      ⟨2, 120, 0, 0, 0⟩ :=
  ⟨rfl,
    (claim_C1 initialState (some archiveNoProjections) rfl).1,
    (claim_C1 initialState (some archiveNoProjections) rfl).2.1,
    ((claim_C1 initialState (some archiveNoProjections) rfl).2.2.2.2.2.2.2.2
      archiveNoProjections
      ⟨⟨2, 120, 0, 0, 0⟩, ⟨360, 30, 0, 0, 1000, 1⟩, ⟨100, 0, 0, 100⟩⟩
      rfl rfl).1⟩

/-- **C2, counterexample** — Mutual exclusion of
{Printing, TestPlaying, Calibrating} does not hold: starting a simulated
print and then invoking `handleCalibration` (reachable through the UI — the
calibrate button is only disabled while the projection window is
disconnected) leaves both `isPrinting` and `isCalibrating` true, because
`handleCalibration` stops test playback but never stops a print, and
`handlePrint` stops neither test playback nor calibration. -/
theorem claim_C2_counterexample :
    (step .print c2State).isPrinting = true ∧
    (step .calibration (step .print c2State)).isPrinting = true ∧
    (step .calibration (step .print c2State)).isCalibrating = true := by
  refine ⟨rfl, rfl, rfl⟩

/-- `stopPrint` leaves the test-playback and calibration flags unchanged. -/
theorem stopPrint_testCal (s : AppState) :
    (stopPrint s).1.isTestPrinting = s.isTestPrinting ∧
    (stopPrint s).1.isCalibrating = s.isCalibrating :=
  ⟨rfl, rfl⟩

/-- `handlePrint` leaves the test-playback and calibration flags
unchanged (in every branch). -/
theorem handlePrint_testCal (s : AppState) :
    (handlePrint s).1.isTestPrinting = s.isTestPrinting ∧
    (handlePrint s).1.isCalibrating = s.isCalibrating := by
  by_cases hp : s.isPrinting = true
  · simp [handlePrint, hp, stopPrint]
  · by_cases hsim : s.isSimulationMode = true
    · by_cases hc : s.presentationConn = some PresState.connected
      · by_cases hz : 0 ≥ s.projectionImages.length
        · simp [handlePrint, hp, hsim, hc, runSimulationStep, hz, stopPrint]
        · simp [handlePrint, hp, hsim, hc, runSimulationStep, hz]
      · simp [handlePrint, hp, hsim, hc]
    · by_cases hw : s.writeCharacteristic = true <;>
        simp [handlePrint, hp, hsim, hw]

/-- `runSimulationStep` leaves the test-playback and calibration flags
unchanged. -/
theorem runSimulationStep_testCal (images : List String) (s : AppState) :
    (runSimulationStep images s).1.isTestPrinting = s.isTestPrinting ∧
    (runSimulationStep images s).1.isCalibrating = s.isCalibrating := by
  unfold runSimulationStep stopPrint
  split <;> simp

/-- **C2, amended** — The pairwise exclusion that the handlers do maintain:
`TestPlaying` and `Calibrating` are never simultaneously active — every
session-controller event preserves `¬(isTestPrinting ∧ isCalibrating)`, and
entering calibration while the channel is connected forcibly leaves test
playback stopped.  (Printing, by contrast, is not excluded by the handlers:
`handleCalibration` never stops a print and `handlePrint` never stops test
playback or calibration, so `Printing` can coexist with `Calibrating`.) -/
theorem claim_C2 (e : Ev) (s : AppState)
    (h : ¬(s.isTestPrinting = true ∧ s.isCalibrating = true)) :
    ¬((step e s).isTestPrinting = true ∧ (step e s).isCalibrating = true) ∧
    (s.presentationConn = some .connected →
      (handleCalibration s).1.isTestPrinting = false) := by
  have hcal : s.presentationConn = some .connected →
      (handleCalibration s).1.isTestPrinting = false := by
    intro hconn
    unfold handleCalibration
    rw [if_neg (by simp [hconn])]
    by_cases ht : s.isTestPrinting = true <;>
      simp [ht, stopTestPrint]
  refine ⟨?_, hcal⟩
  cases e with
  | print =>
    have := handlePrint_testCal s
    simp only [step, this.1, this.2]
    exact h
  | testPrint =>
    simp only [step]
    unfold handleTestPrint
    by_cases ht : s.isTestPrinting = true
    · simp [ht, stopTestPrint]
    · by_cases hl : s.projectionImages.length = 0
      · simpa [ht, hl] using h
      · by_cases hc : s.presentationConn = some PresState.connected
        · by_cases hcal2 : s.isCalibrating = true <;>
            simp [ht, hl, hc, hcal2]
        · simpa [ht, hl, hc] using h
  | calibration =>
    simp only [step]
    unfold handleCalibration
    by_cases hc : s.presentationConn = some PresState.connected
    · rw [if_neg (by simp [hc])]
      by_cases ht : s.isTestPrinting = true <;>
        simp [ht, stopTestPrint]
    · simpa [hc] using h
  | stop =>
    have := stopPrint_testCal s
    simp only [step, this.1, this.2]
    exact h
  | stopTest =>
    simp only [step]
    unfold stopTestPrint
    simp
  | gattDisconnected =>
    have := stopPrint_testCal
      { s with isConnected := false, writeCharacteristic := false }
    simp only [step, onGattDisconnected, this.1, this.2]
    exact h
  | projWindowClose =>
    simp only [step]
    unfold onProjWindowClose stopPrint stopTestPrint
    simp
  | projWindowConnect =>
    simpa [step, onProjWindowConnect] using h
  | esp32Notification =>
    simp only [step]
    unfold handleESP32Notification
    split <;> simpa using h
  | simStep =>
    have := runSimulationStep_testCal s.projectionImages s
    simp only [step, this.1, this.2]
    exact h
  | testStep frame =>
    simp only [step]
    unfold testPrintStep
    split
    · simpa using h
    · simp [stopTestPrint]

/-- Witness for the amended C2: from the ready state, starting a test
playback and then toggling calibration never leaves both flags set. -/
theorem claim_C2_witness :
    ¬(c2State.isTestPrinting = true ∧ c2State.isCalibrating = true) ∧
    ¬((step .calibration (step .testPrint c2State)).isTestPrinting = true ∧
      (step .calibration (step .testPrint c2State)).isCalibrating = true) ∧
    (c2State.presentationConn = some .connected →
      (handleCalibration c2State).1.isTestPrinting = false) :=
  ⟨by decide,
    (claim_C2 .calibration (step .testPrint c2State)
      ((claim_C2 .testPrint c2State (by decide)).1)).1,
    (claim_C2 .print c2State (by decide)).2⟩

/-! ## Decimal rendering lemmas (for the archive entry names) -/

/-- Single-step unfolding of the fuelled decimal rendering. -/
theorem decDigitsCore_succ (f n : ℕ) :
    decDigitsCore (f + 1) n =
      if n < 10 then [digitChar n]
      else decDigitsCore f (n / 10) ++ [digitChar (n % 10)] := rfl

/-- The fuelled decimal rendering does not depend on the fuel, as long as
there is enough of it. -/
theorem decDigitsCore_congr :
    ∀ n f g, n ≤ f → n ≤ g → decDigitsCore (f + 1) n = decDigitsCore (g + 1) n := by
  intro n
  induction n using Nat.strong_induction_on with
  | _ n ih =>
    intro f g hf hg
    by_cases h10 : n < 10
    · simp [decDigitsCore, h10]
    · obtain ⟨f', rfl⟩ : ∃ f', f = f' + 1 := ⟨f - 1, by omega⟩
      obtain ⟨g', rfl⟩ : ∃ g', g = g' + 1 := ⟨g - 1, by omega⟩
      rw [decDigitsCore_succ (f' + 1) n]
      rw [decDigitsCore_succ (g' + 1) n]
      rw [if_neg h10]
      rw [if_neg h10]
      rw [ih (n / 10) (by omega) f' g' (by omega) (by omega)]

/-- One-digit numbers render as their digit. -/
theorem decRepr_lt10 (n : ℕ) (h : n < 10) : decRepr n = [digitChar n] := by
  simp [decRepr, decDigitsCore, h]

/-- Multi-digit numbers render as the rendering of their leading digits
followed by the last digit. -/
theorem decRepr_ge10 (n : ℕ) (h : 10 ≤ n) :
    decRepr n = decRepr (n / 10) ++ [digitChar (n % 10)] := by
  obtain ⟨m, rfl⟩ : ∃ m, n = m + 1 := ⟨n - 1, by omega⟩
  have h10 : ¬ m + 1 < 10 := by omega
  show decDigitsCore (m + 1 + 1) (m + 1) = _
  rw [decDigitsCore_succ (m + 1) (m + 1), if_neg h10,
    decDigitsCore_congr ((m + 1) / 10) m ((m + 1) / 10) (by omega) (le_refl _)]
  rfl

/-- Two-digit canonical form. -/
theorem decRepr_canon2 (n : ℕ) (h1 : 10 ≤ n) (h2 : n < 100) :
    decRepr n = [digitChar (n / 10), digitChar (n % 10)] := by
  rw [decRepr_ge10 n h1, decRepr_lt10 (n / 10) (by omega)]
  rfl

/-- Three-digit canonical form. -/
theorem decRepr_canon3 (n : ℕ) (h1 : 100 ≤ n) (h2 : n < 1000) :
    decRepr n =
      [digitChar (n / 100), digitChar (n / 10 % 10), digitChar (n % 10)] := by
  rw [decRepr_ge10 n (by omega), decRepr_canon2 (n / 10) (by omega) (by omega)]
  rw [Nat.div_div_eq_div_mul]
  rfl

/-- Four-digit canonical form. -/
theorem decRepr_canon4 (n : ℕ) (h1 : 1000 ≤ n) (h2 : n < 10000) :
    decRepr n =
      [digitChar (n / 1000), digitChar (n / 100 % 10),
       digitChar (n / 10 % 10), digitChar (n % 10)] := by
  rw [decRepr_ge10 n (by omega), decRepr_canon3 (n / 10) (by omega) (by omega)]
  rw [Nat.div_div_eq_div_mul, Nat.div_div_eq_div_mul]
  rfl

/-- Below 10000, `pad4` always produces the four decimal digits, zero
padded. -/
theorem pad4_canon (n : ℕ) (h : n < 10000) :
    (pad4 n).data =
      [digitChar (n / 1000), digitChar (n / 100 % 10),
       digitChar (n / 10 % 10), digitChar (n % 10)] := by
  have hd0 : digitChar 0 = '0' := rfl
  by_cases h1 : n < 10
  · have e3 : n / 1000 = 0 := by omega
    have e2 : n / 100 % 10 = 0 := by omega
    have e1 : n / 10 % 10 = 0 := by omega
    have e0 : n % 10 = n := by omega
    simp [pad4, decRepr_lt10 n h1, e3, e2, e1, e0, hd0, List.replicate]
  · by_cases hb : n < 100
    · have e3 : n / 1000 = 0 := by omega
      have e2 : n / 100 % 10 = 0 := by omega
      have e1 : n / 10 % 10 = n / 10 := by omega
      simp [pad4, decRepr_canon2 n (by omega) hb, e3, e2, e1, hd0, List.replicate]
    · by_cases hc : n < 1000
      · have e3 : n / 1000 = 0 := by omega
        have e2 : n / 100 % 10 = n / 100 := by omega
        simp [pad4, decRepr_canon3 n (by omega) hc, e3, e2, hd0, List.replicate]
      · simp [pad4, decRepr_canon4 n (by omega) h, List.replicate]

/-! ## Lexicographic-order lemmas -/

/-- `lexLt` is irreflexive. -/
theorem lexLt_irrefl : ∀ l : List Char, lexLt l l = false
  | [] => rfl
  | a :: as => by simp [lexLt, lt_irrefl, lexLt_irrefl as]

/-- `lexLt` is transitive. -/
theorem lexLt_trans (a : List Char) :
    ∀ b c, lexLt a b = true → lexLt b c = true → lexLt a c = true := by
  induction a with
  | nil =>
    intro b c h1 h2
    cases b with
    | nil => simp [lexLt] at h1
    | cons y ys =>
      cases c with
      | nil => simp [lexLt] at h2
      | cons z zs => simp [lexLt]
  | cons x xs ih =>
    intro b c h1 h2
    cases b with
    | nil => simp [lexLt] at h1
    | cons y ys =>
      cases c with
      | nil => simp [lexLt] at h2
      | cons z zs =>
        simp only [lexLt] at h1 h2 ⊢
        by_cases hyz : y < z
        · by_cases hxy : x < y
          · simp [hxy.trans hyz]
          · by_cases hyx : y < x
            · simp [hxy, hyx] at h1
            · have hxy' : x = y := le_antisymm (not_lt.mp hyx) (not_lt.mp hxy)
              subst hxy'
              simp [hyz]
        · by_cases hzy : z < y
          · simp [hyz, hzy] at h2
          · have hyz' : y = z := le_antisymm (not_lt.mp hzy) (not_lt.mp hyz)
            subst hyz'
            by_cases hxy : x < y
            · simp [hxy]
            · by_cases hyx : y < x
              · simp [hxy, hyx] at h1
              · simp only [hxy, if_false, hyx] at h1 ⊢
                simp only [lt_irrefl, if_false] at h2
                exact ih ys zs h1 h2

/-- Lists that `lexLt` places below each other in both directions are
equal. -/
theorem lexLt_antisymm_eq (a : List Char) :
    ∀ b, lexLt a b = false → lexLt b a = false → a = b := by
  induction a with
  | nil =>
    intro b h1 _
    cases b with
    | nil => rfl
    | cons y ys => simp [lexLt] at h1
  | cons x xs ih =>
    intro b h1 h2
    cases b with
    | nil => simp [lexLt] at h2
    | cons y ys =>
      simp only [lexLt] at h1 h2
      by_cases hxy : x < y
      · simp [hxy] at h1
      · by_cases hyx : y < x
        · simp [hxy, hyx] at h2
        · have hxy' : x = y := le_antisymm (not_lt.mp hyx) (not_lt.mp hxy)
          subst hxy'
          simp only [lt_irrefl, if_false] at h1 h2
          rw [ih ys h1 h2]

/-- `lexLt` is asymmetric. -/
theorem lexLt_asymm {a b : List Char} (h : lexLt a b = true) :
    lexLt b a = false := by
  cases hba : lexLt b a with
  | false => rfl
  | true =>
    have := lexLt_trans a b a h hba
    rw [lexLt_irrefl a] at this
    exact absurd this (by simp)

/-- Negated `lexLt` (the `localeCompare ≤ 0` order) is transitive. -/
theorem lexLt_neg_trans {a b c : List Char}
    (h1 : lexLt b a = false) (h2 : lexLt c b = false) : lexLt c a = false := by
  cases hab : lexLt a b with
  | true =>
    cases hca : lexLt c a with
    | false => rfl
    | true =>
      have := lexLt_trans c a b hca hab
      rw [h2] at this
      exact absurd this (by simp)
  | false =>
    have : a = b := lexLt_antisymm_eq a b hab h1
    subst this
    exact h2

/-- A common prefix does not affect `lexLt`. -/
theorem lexLt_append_same (p : List Char) :
    ∀ l₁ l₂, lexLt l₁ l₂ = true → lexLt (p ++ l₁) (p ++ l₂) = true := by
  induction p with
  | nil => intro l₁ l₂ h; simpa using h
  | cons c cs ih =>
    intro l₁ l₂ h
    simp only [List.cons_append, lexLt, lt_irrefl, if_false]
    exact ih l₁ l₂ h

/-- Appending arbitrary tails after equal-length `lexLt`-ordered lists
preserves the order. -/
theorem lexLt_append_of_length (t₁ t₂ : List Char) :
    ∀ l₁ l₂, lexLt l₁ l₂ = true → l₁.length = l₂.length →
      lexLt (l₁ ++ t₁) (l₂ ++ t₂) = true := by
  intro l₁
  induction l₁ with
  | nil =>
    intro l₂ h hl
    cases l₂ with
    | nil => simp [lexLt] at h
    | cons y ys => simp at hl
  | cons x xs ih =>
    intro l₂ h hl
    cases l₂ with
    | nil => simp at hl
    | cons y ys =>
      simp only [List.cons_append, lexLt] at h ⊢
      by_cases hxy : x < y
      · simp [hxy]
      · by_cases hyx : y < x
        · simp [hxy, hyx] at h
        · simp only [hxy, if_false, hyx] at h ⊢
          exact ih ys h (by simpa using hl)

/-! ## Ordering of archive entry names -/

/-- `digitChar` is strictly monotone on digits. -/
theorem digitChar_mono : ∀ a < 10, ∀ b < 10, a < b → digitChar a < digitChar b := by
  decide

/-- Below 10000, `pad4` is strictly monotone for the entry-name order. -/
theorem pad4_lt (i j : ℕ) (hij : i < j) (hj : j < 10000) :
    lexLt (pad4 i).data (pad4 j).data = true := by
  rw [pad4_canon i (by omega), pad4_canon j hj]
  rcases Nat.lt_trichotomy (i / 1000) (j / 1000) with h3 | h3 | h3
  · have hc := digitChar_mono (i / 1000) (by omega) (j / 1000) (by omega) h3
    simp [lexLt, hc]
  · rw [h3]
    simp only [lexLt, lt_irrefl, if_false]
    rcases Nat.lt_trichotomy (i / 100 % 10) (j / 100 % 10) with h2 | h2 | h2
    · have hc := digitChar_mono (i / 100 % 10) (by omega) (j / 100 % 10) (by omega) h2
      simp [hc]
    · rw [h2]
      simp only [lt_irrefl, if_false]
      rcases Nat.lt_trichotomy (i / 10 % 10) (j / 10 % 10) with h1 | h1 | h1
      · have hc := digitChar_mono (i / 10 % 10) (by omega) (j / 10 % 10) (by omega) h1
        simp [hc]
      · rw [h1]
        simp only [lt_irrefl, if_false]
        have h0 : i % 10 < j % 10 := by omega
        have hc := digitChar_mono (i % 10) (by omega) (j % 10) (by omega) h0
        simp [hc]
      · exact absurd h1 (by omega)
    · exact absurd h2 (by omega)
  · exact absurd h3 (by omega)

/-- Below 10000, the padded names have four characters. -/
theorem pad4_length (i : ℕ) (h : i < 10000) : (pad4 i).data.length = 4 := by
  rw [pad4_canon i h]
  rfl

/-- Below 10000, the archive entry names are strictly increasing in the
entry-name order. -/
theorem sliceName_lt (i j : ℕ) (hij : i < j) (hj : j < 10000) :
    lexLt (sliceName i).data (sliceName j).data = true := by
  have hlen : (pad4 i).data.length = (pad4 j).data.length := by
    rw [pad4_length i (by omega), pad4_length j hj]
  unfold sliceName
  simp only [String.data_append]
  rw [List.append_assoc, List.append_assoc]
  exact lexLt_append_same _ _ _
    (lexLt_append_of_length _ _ _ _ (pad4_lt i j hij hj) hlen)

/-! ## Comma-freeness and data-URL splitting -/

/-- Digit characters are never commas. -/
theorem digitChar_ne_comma (x : ℕ) : digitChar x ≠ ',' := by
  unfold digitChar
  split <;> decide

/-- Every character of the fuelled decimal rendering is a digit
character. -/
theorem mem_decDigitsCore {c : Char} :
    ∀ f n, c ∈ decDigitsCore f n → ∃ x, c = digitChar x := by
  intro f
  induction f with
  | zero => intro n h; simp [decDigitsCore] at h
  | succ f ih =>
    intro n h
    by_cases h10 : n < 10
    · rw [decDigitsCore_succ, if_pos h10] at h
      exact ⟨n, by simpa using h⟩
    · rw [decDigitsCore_succ, if_neg h10] at h
      rcases List.mem_append.mp h with h | h
      · exact ih _ h
      · exact ⟨n % 10, by simpa using h⟩

/-- Archive entry names contain no comma. -/
theorem comma_not_mem_sliceName (i : ℕ) : ',' ∉ (sliceName i).data := by
  intro h
  unfold sliceName at h
  rw [String.data_append, String.data_append] at h
  rcases List.mem_append.mp h with h1 | h1
  · rcases List.mem_append.mp h1 with h2 | h2
    · revert h2; decide
    · unfold pad4 at h2
      rcases List.mem_append.mp h2 with h3 | h3
      · exact absurd (List.eq_of_mem_replicate h3) (by decide)
      · obtain ⟨x, hx⟩ := mem_decDigitsCore _ _ h3
        exact digitChar_ne_comma x hx.symm
  · revert h1; decide

/-- Splitting a comma-free list yields the list itself. -/
theorem splitCommaList_no_comma : ∀ l : List Char, ',' ∉ l → splitCommaList l = [l] := by
  intro l
  induction l with
  | nil => intro _; rfl
  | cons c cs ih =>
    intro h
    have hc : ¬ (c = ',') := fun hc => h (hc ▸ List.mem_cons_self c cs)
    have hcs : ',' ∉ cs := fun hm => h (List.mem_cons_of_mem c hm)
    simp only [splitCommaList, ih hcs, decide_eq_false hc]

/-- Splitting around the first comma isolates the comma-free head. -/
theorem splitCommaList_append (p d : List Char) (hp : ',' ∉ p) :
    splitCommaList (p ++ ',' :: d) = p :: splitCommaList d := by
  induction p with
  | nil => simp [splitCommaList]
  | cons c cs ih =>
    have hc : ¬ (c = ',') := fun hc => hp (hc ▸ List.mem_cons_self c cs)
    have hcs : ',' ∉ cs := fun hm => hp (List.mem_cons_of_mem c hm)
    simp only [List.cons_append, splitCommaList, List.append_eq, ih hcs,
      decide_eq_false hc]

/-- `split(',')[1]` recovers the base64 payload of a canonical data URL. -/
theorem split1_dataUrl (y : String) (hy : ',' ∉ y.data) :
    split1 (dataUrlStart ++ y) = y := by
  obtain ⟨yd⟩ := y
  unfold split1
  rw [String.data_append]
  rw [show dataUrlStart.data = "data:image/png;base64".data ++ [','] from rfl]
  rw [List.append_assoc]
  rw [show [','] ++ yd = ',' :: yd from rfl]
  rw [splitCommaList_append _ _ (by decide)]
  rw [splitCommaList_no_comma yd hy]
  rfl

/-! ## The import filter keeps every exported entry -/

/-- Exported names pass the lower-cased `.png` filter. -/
theorem sliceName_lower_png (i : ℕ) :
    strEndsWith (strToLower (sliceName i)) ".png" = true := by
  unfold strEndsWith strToLower sliceName
  apply List.isSuffixOf_iff_suffix.mpr
  simp only [String.data_append, List.map_append]
  rw [show (".png" : String).data.map Char.toLower = (".png" : String).data from by decide]
  exact List.suffix_append _ _

/-! ## The entry comparator is a total preorder -/

/-- The entry-name order is transitive. -/
theorem nameLe_trans (a b c : String)
    (h1 : nameLe a b = true) (h2 : nameLe b c = true) : nameLe a c = true := by
  unfold nameLe at *
  simp only [Bool.not_eq_true'] at *
  exact lexLt_neg_trans h1 h2

/-- The entry-name order is total. -/
theorem nameLe_total (a b : String) : (nameLe a b || nameLe b a) = true := by
  unfold nameLe
  cases h : lexLt b.data a.data with
  | false => simp
  | true => simp [lexLt_asymm h]

/-! ## Round trip of the job package codec -/

/-- Reading a list back off by indices is the identity (modulo `map`). -/
theorem range_map_getD {α β : Type} (l : List α) (f : α → β) (d : α) :
    (List.range l.length).map (fun i => f (l.getD i d)) = l.map f := by
  induction l with
  | nil => rfl
  | cons x xs ih =>
    rw [List.length_cons, List.range_succ_eq_map, List.map_cons, List.map_map]
    have hc : ((fun i => f ((x :: xs).getD i d)) ∘ Nat.succ) =
        fun i => f (xs.getD i d) := by
      funext i
      simp
    rw [hc, ih, List.map_cons]
    rfl

/-- `importImages`, with its `let`s expanded. -/
theorem importImages_eq (entries : List (String × String)) :
    importImages entries =
      ((entries.filter fun e => strEndsWith (strToLower e.1) ".png").mergeSort
        fun a b => nameLe a.1 b.1).map fun e => dataUrlStart ++ e.2 := rfl

/-- For at most 10000 images, the exported entry list is already sorted by
the entry-name order. -/
theorem exportEntries_pairwise (imgs : List String) (hlen : imgs.length ≤ 10000) :
    (exportEntries imgs).Pairwise (fun a b => nameLe a.1 b.1 = true) := by
  unfold exportEntries
  rw [List.pairwise_map]
  refine List.Pairwise.imp_of_mem ?_ (List.pairwise_lt_range imgs.length)
  intro i j hi hj hij
  have hj' : j < 10000 := by
    have := List.mem_range.mp hj
    omega
  have := lexLt_asymm (sliceName_lt i j hij hj')
  simp only [nameLe, this, Bool.not_false]

/-- Exported entries all pass the import filter. -/
theorem exportEntries_filter (imgs : List String) :
    (exportEntries imgs).filter
      (fun e => strEndsWith (strToLower e.1) ".png") = exportEntries imgs := by
  apply List.filter_eq_self.mpr
  intro e he
  unfold exportEntries at he
  obtain ⟨i, hi, rfl⟩ := List.mem_map.mp he
  exact sliceName_lower_png i

/-- Importing the exported entries of an image set of canonical data URLs
reproduces the image set, in order, as long as there are at most 10000
images (so that the zero-padded names stay fixed-width). -/
theorem importImages_exportEntries (imgs : List String)
    (hlen : imgs.length ≤ 10000)
    (hwf : ∀ img ∈ imgs, dataUrlStart ++ split1 img = img) :
    importImages (exportEntries imgs) = imgs := by
  rw [importImages_eq, exportEntries_filter,
    List.mergeSort_of_sorted (exportEntries_pairwise imgs hlen)]
  unfold exportEntries
  rw [List.map_map]
  rw [show ((fun e : String × String => dataUrlStart ++ e.2) ∘
      fun i => (sliceName i, split1 (imgs.getD i ""))) =
      fun i => dataUrlStart ++ split1 (imgs.getD i "") from rfl]
  rw [range_map_getD imgs (fun img => dataUrlStart ++ split1 img) ""]
  exact (List.map_congr_left
    (show ∀ a ∈ imgs, dataUrlStart ++ split1 a = id a from hwf)).trans
    (List.map_id imgs)

/-- **C5, amended** — Export→import round trip for image sets of at most
10000 canonical data-URL images: importing (into any state) the archive
produced by a successful export yields the same three parameter structs and
the same image set with order preserved exactly, because the fixed-width
zero-padded entry names are strictly increasing and import re-sorts entries
by name.  (Beyond 10000 images `padStart(4, '0')` stops being fixed-width
and the name sort permutes the images — see the counterexample.) -/
theorem claim_C5 (s t : AppState) (ar : Archive)
    (hexp : handleExportJob s = some ar)
    (hlen : s.projectionImages.length ≤ 10000)
    (hwf : ∀ img ∈ s.projectionImages, dataUrlStart ++ split1 img = img) :
    (handleImportJob t (some ar)).2 = true ∧
    (handleImportJob t (some ar)).1.slicingParams = s.slicingParams ∧
    (handleImportJob t (some ar)).1.projectionParams = s.projectionParams ∧
    (handleImportJob t (some ar)).1.alignmentParams = s.alignmentParams ∧
    (handleImportJob t (some ar)).1.projectionImages = s.projectionImages := by
  unfold handleExportJob at hexp
  by_cases hg : s.slicingStatus ≠ SlicingStatus.complete ∨
      s.projectionImages.length = 0
  · rw [if_pos hg] at hexp
    exact absurd hexp (by simp)
  · rw [if_neg hg] at hexp
    injection hexp with hexp
    subst hexp
    refine ⟨?_, ?_, ?_, ?_, ?_⟩ <;>
      simp [handleImportJob,
        importImages_exportEntries s.projectionImages hlen hwf]

/-- Witness for the amended C5 on a one-image set: the round trip restores
the parameters and the image list. -/
theorem claim_C5_witness :
    handleExportJob
        { initialState with
          slicingStatus := .complete
          projectionImages := ["data:image/png;base64,AAAA"] } =
      some
        { settings := some ⟨⟨1, 120, 0, 0, 0⟩, ⟨360, 30, 0, 0, 1000, 1⟩,
            ⟨100, 0, 0, 100⟩⟩
          projections := some [("slice_0000.png", "AAAA")]
          zipName := "model.zip" } ∧
    (["data:image/png;base64,AAAA"] : List String).length ≤ 10000 ∧
    (∀ img ∈ (["data:image/png;base64,AAAA"] : List String),
      dataUrlStart ++ split1 img = img) ∧
    (handleImportJob initialState
        (some
          { settings := some ⟨⟨1, 120, 0, 0, 0⟩, ⟨360, 30, 0, 0, 1000, 1⟩,
              ⟨100, 0, 0, 100⟩⟩
            projections := some [("slice_0000.png", "AAAA")]
            zipName := "model.zip" })).1.projectionImages =
      ({ initialState with
          slicingStatus := .complete
          projectionImages := ["data:image/png;base64,AAAA"] } :
        AppState).projectionImages :=
  ⟨by decide, by decide, by decide,
    (claim_C5
      { initialState with
        slicingStatus := .complete
        projectionImages := ["data:image/png;base64,AAAA"] }
      initialState
      { settings := some ⟨⟨1, 120, 0, 0, 0⟩, ⟨360, 30, 0, 0, 1000, 1⟩,
          ⟨100, 0, 0, 100⟩⟩
        projections := some [("slice_0000.png", "AAAA")]
        zipName := "model.zip" }
      (by decide) (by decide) (by decide)).2.2.2.2⟩

/-- A permutation with equal images under a map that is injective on the
elements is the identity. -/
theorem map_inj_perm {α β : Type} (f : α → β) :
    ∀ (l₁ l₂ : List α), l₁.Perm l₂ → l₁.map f = l₂.map f →
      (∀ x ∈ l₂, ∀ y ∈ l₂, f x = f y → x = y) → l₁ = l₂ := by
  intro l₁
  induction l₁ with
  | nil =>
    intro l₂ hperm _ _
    exact hperm.nil_eq
  | cons a t₁ ih =>
    intro l₂ hperm hmap hinj
    cases l₂ with
    | nil =>
      have := hperm.eq_nil
      simp at this
    | cons b t₂ =>
      simp only [List.map_cons, List.cons.injEq] at hmap
      obtain ⟨hfab, hmaps⟩ := hmap
      have hab : a = b :=
        hinj a (hperm.mem_iff.mp (List.mem_cons_self a t₁)) b
          (List.mem_cons_self b t₂) hfab
      subst hab
      have hinj2 : ∀ x ∈ t₂, ∀ y ∈ t₂, f x = f y → x = y := fun x hx y hy =>
        hinj x (List.mem_cons_of_mem _ hx) y (List.mem_cons_of_mem _ hy)
      rw [ih t₂ hperm.cons_inv hmaps hinj2]

/-- The exported entries of `c5Images`, in closed form: entry `i` carries
the name `sliceName i` and, since `split(',')[1]` undoes the data-URL
prelude, the payload `sliceName i` as well. -/
theorem c5_entries_eq :
    exportEntries c5Images =
      (List.range 10001).map fun i => (sliceName i, sliceName i) := by
  unfold exportEntries
  rw [show c5Images.length = 10001 from by simp [c5Images]]
  apply List.map_congr_left
  intro i hi
  have hi' : i < 10001 := List.mem_range.mp hi
  have hget : c5Images.getD i "" = dataUrlStart ++ sliceName i := by
    unfold c5Images
    simp [List.getElem?_range hi']
  rw [hget, split1_dataUrl _ (comma_not_mem_sliceName i)]

set_option maxRecDepth 4096 in
/-- **C5, counterexample** — The round trip fails on a 10001-image set: the
name of entry 10000 is `slice_10000.png`, which the name sort places
between `slice_1000.png` and `slice_1001.png`, so the imported image list
is a nontrivial permutation of the exported one.  The claim that
`import(export(p1, p2, p3, imgs)) = (p1, p2, p3, imgs)` holds for *any*
nonempty ImageSet is therefore false at this concrete input. -/
theorem claim_C5_counterexample :
    (handleImportJob initialState (handleExportJob c5State)).1.projectionImages ≠
      c5State.projectionImages := by
  intro himp
  have hexp : handleExportJob c5State =
      some
        { settings := some ⟨initialState.slicingParams,
            initialState.projectionParams, initialState.alignmentParams⟩
          projections := some (exportEntries c5Images)
          zipName := "model.zip" } := by
    have hPI : c5State.projectionImages = c5Images := by simp only [c5State]
    have hSP : c5State.slicingParams = initialState.slicingParams := by
      simp only [c5State]
    have hPP : c5State.projectionParams = initialState.projectionParams := by
      simp only [c5State]
    have hAP : c5State.alignmentParams = initialState.alignmentParams := by
      simp only [c5State]
    have hFN : c5State.fileName = none := by simp only [c5State, initialState]
    have hST : c5State.slicingStatus = SlicingStatus.complete := by
      simp only [c5State]
    have hL : c5State.projectionImages.length = 10001 := by
      rw [hPI]
      simp [c5Images]
    have hng : ¬(c5State.slicingStatus ≠ SlicingStatus.complete ∨
        c5State.projectionImages.length = 0) := by
      rw [hST, hL]
      simp
    unfold handleExportJob
    rw [if_neg hng, hPI, hSP, hPP, hAP, hFN,
      show (Option.getD (none : Option String) "model") = "model" from rfl]
    exact congrArg some (congrArg (Archive.mk _ _) (by decide))
  rw [hexp] at himp
  have himp2 : importImages (exportEntries c5Images) = c5Images := by
    simpa [handleImportJob, c5State] using himp
  rw [importImages_eq, exportEntries_filter] at himp2
  have hmapE : (exportEntries c5Images).map (fun e => dataUrlStart ++ e.2) =
      c5Images := by
    rw [c5_entries_eq, List.map_map]
    simp only [c5Images]
    apply List.map_congr_left
    intro a _
    rfl
  have hinj : ∀ x ∈ exportEntries c5Images, ∀ y ∈ exportEntries c5Images,
      dataUrlStart ++ x.2 = dataUrlStart ++ y.2 → x = y := by
    intro x hx y hy hxy
    rw [c5_entries_eq] at hx hy
    obtain ⟨i, hi, rfl⟩ := List.mem_map.mp hx
    obtain ⟨j, hj, rfl⟩ := List.mem_map.mp hy
    have hd := congrArg String.data hxy
    rw [String.data_append, String.data_append] at hd
    have hname : sliceName i = sliceName j :=
      String.ext (List.append_cancel_left hd)
    rw [hname]
  have hSE : (exportEntries c5Images).mergeSort (fun a b => nameLe a.1 b.1) =
      exportEntries c5Images :=
    map_inj_perm _ _ _ (List.mergeSort_perm (exportEntries c5Images) _)
      (himp2.trans hmapE.symm) hinj
  have htrans : ∀ (a b c : String × String),
      nameLe a.1 b.1 → nameLe b.1 c.1 → nameLe a.1 c.1 := fun a b c h1 h2 =>
    nameLe_trans a.1 b.1 c.1 h1 h2
  have htotal : ∀ (a b : String × String),
      (nameLe a.1 b.1 || nameLe b.1 a.1) = true := fun a b =>
    nameLe_total a.1 b.1
  have hsorted := List.sorted_mergeSort htrans htotal (exportEntries c5Images)
  rw [hSE] at hsorted
  have hlenE : (exportEntries c5Images).length = 10001 := by
    rw [c5_entries_eq]
    simp
  have hi1 : 1001 < (exportEntries c5Images).length := by omega
  have hi2 : 10000 < (exportEntries c5Images).length := by omega
  have hpair := List.pairwise_iff_getElem.mp hsorted 1001 10000 hi1 hi2
    (by norm_num)
  simp only [c5_entries_eq, List.getElem_map, List.getElem_range] at hpair
  have : nameLe (sliceName 1001) (sliceName 10000) = false := by decide
  rw [this] at hpair
  exact absurd hpair (by simp)

end VAM
